import Mathlib

/-!
Shallow embedding of the point-of-sale backend (`pos_backend_by_rk/run.py`):
record mapping, user/product lookups, reseller price resolution, the
`/pos/sale` and `/pos/checkout` handlers, the `/pos/stock` handler and the
best-effort stock adjustment.

Python behaviour is made explicit:
* conversions that can raise `ValueError` (`int(...)`, `float(...)`,
  `datetime.date.fromisoformat(...)`, `list.index(...)`) return `Option`;
* the bare `try/except` blocks of the source become explicit `Except`
  handling, and an uncaught exception is an `Except.error`;
* Python `float` arithmetic is modelled by `ℚ`; every value appearing in
  the code's arithmetic (decimal cell contents, integer quantities and
  their products/differences) is represented exactly;
* `datetime.date` values are encoded as the natural number
  `y * 10000 + m * 100 + d`, an order-preserving encoding of valid dates;
* each handler takes the stored tables as an explicit `Db` value (the code
  re-reads them from the sheet on every request) and returns the new `Db`.
-/

/-! ### Python numeric and date parsing -/

/-- Numeric value of a decimal digit character. -/
def digitVal (c : Char) : Nat := c.toNat - 48

/-- All characters are decimal digits. -/
def allDigits (cs : List Char) : Bool := cs.all Char.isDigit

/-- Value of a digit list read in base 10. -/
def natOfDigits (cs : List Char) : Nat := cs.foldl (fun a c => a * 10 + digitVal c) 0

/-- Model of Python `int(s)` on a string: optional sign followed by a nonempty
digit run; anything else raises, modelled as `none`.  (Surrounding whitespace
and `_` separators accepted by Python are outside the model; no claim input
uses them.) -/
def parsePyInt (s : String) : Option Int :=
  match s.toList with
  | '+' :: cs => if cs ≠ [] ∧ allDigits cs then some (natOfDigits cs : Int) else none
  | '-' :: cs => if cs ≠ [] ∧ allDigits cs then some (-(natOfDigits cs : Int)) else none
  | cs => if cs ≠ [] ∧ allDigits cs then some (natOfDigits cs : Int) else none

/-- Unsigned decimal literal: digit run with an optional single point; at
least one digit overall (`"3."`, `".5"`, `"12"` parse; `"."`, `""` do not). -/
def parseDecimalCore (cs : List Char) : Option ℚ :=
  match cs.splitOn '.' with
  | [ds] => if ds ≠ [] ∧ allDigits ds then some (natOfDigits ds : ℚ) else none
  | [is, fs] =>
    if (is ≠ [] ∨ fs ≠ []) ∧ allDigits is ∧ allDigits fs then
      some ((natOfDigits is : ℚ) + (natOfDigits fs : ℚ) / ((10 : ℚ) ^ fs.length))
    else none
  | _ => none

/-- Model of Python `float(s)`: optionally signed decimal literal, `none` on
`ValueError`.  (Exponents, `inf`/`nan`, whitespace and `_` separators are
outside the model; no claim input uses them.) -/
def parsePyFloat (s : String) : Option ℚ :=
  match s.toList with
  | '+' :: cs => parseDecimalCore cs
  | '-' :: cs => (parseDecimalCore cs).map (fun q => -q)
  | cs => parseDecimalCore cs

/-- Leap-year rule used by `datetime.date`. -/
def isLeap (y : Nat) : Bool := y % 4 = 0 && (y % 100 ≠ 0 || y % 400 = 0)

/-- Days in a month of a given year, as validated by `datetime.date`. -/
def daysInMonth (y m : Nat) : Nat :=
  if m = 2 then (if isLeap y then 29 else 28)
  else if m = 4 ∨ m = 6 ∨ m = 9 ∨ m = 11 then 30 else 31

/-- Model of `datetime.date.fromisoformat` on the dashed `YYYY-MM-DD` form,
returning the order-preserving code `y * 10000 + m * 100 + d`; `none` models
the `ValueError` on any other input.  (The extra compact forms accepted by
newer Python versions are outside the model; no claim input uses them.) -/
def parseISODate (s : String) : Option Nat :=
  match s.toList with
  | [y1, y2, y3, y4, s1, m1, m2, s2, d1, d2] =>
    if s1 = '-' ∧ s2 = '-' ∧ allDigits [y1, y2, y3, y4, m1, m2, d1, d2] then
      let y := natOfDigits [y1, y2, y3, y4]
      let m := natOfDigits [m1, m2]
      let d := natOfDigits [d1, d2]
      if 1 ≤ y ∧ 1 ≤ m ∧ m ≤ 12 ∧ 1 ≤ d ∧ d ≤ daysInMonth y m then
        some (y * 10000 + m * 100 + d)
      else none
    else none
  | _ => none

/-- Code of `datetime.date(1970, 1, 1)`, the fallback for `valid_from`. -/
def d19700101 : Nat := 19700101

/-- Code of `datetime.date(9999, 12, 31)`, the fallback for `valid_to`. -/
def d99991231 : Nat := 99991231

/-- Effective `valid_from`: `fromisoformat(vf) if vf else date(1970,1,1)` with
the bare `except` also yielding `date(1970,1,1)` (run.py lines 64-66). -/
def vfDate (s : String) : Nat := (parseISODate s).getD d19700101

/-- Effective `valid_to`: `fromisoformat(vt) if vt else date(9999,12,31)` with
the bare `except` also yielding `date(9999,12,31)` (run.py lines 67-69). -/
def vtDate (s : String) : Nat := (parseISODate s).getD d99991231

/-! ### Data model

The tables `Users`, `Products` and `ResellerPricing` are consumed through
`to_dicts` with their standard headers, so their rows are modelled as records
of the cells the code reads (all cells are strings as delivered by the store).
The `Stock` tab is consumed as raw rows (header included), so it is kept as a
list of cell lists. -/

structure UserRow where
  user_id : String
  person_entity_id : String
  reseller_id : String
deriving DecidableEq, Repr

structure ProductRow where
  product_id : String
  short_id : String
  base_price : String
deriving DecidableEq, Repr

structure PriceRow where
  reseller_id : String
  product_id : String
  valid_from : String
  valid_to : String
  price : String
  commission_pct : String
deriving DecidableEq, Repr

/-- One cell of the `Stock` tab.  Reads from the store deliver strings; the
single write performed by the stock adjustment stores the Python float
`cur - qty`, kept exactly as `Cell.num`.  The adjustment only ever writes the
`reseller_qty` column, so identifier columns are `Cell.str` in every state
reachable from a freshly read table. -/
inductive Cell where
  | str (s : String)
  | num (q : ℚ)
deriving DecidableEq, Repr

/-- One appended row of the `Sales` tab (run.py line 147).  The leading
wall-clock timestamp cell is outside the model. -/
structure SaleRow where
  user_id : String
  person_entity_id : String
  customer_id : String
  product_id : String
  short_id : String
  qty : Int
  price : ℚ
  commission_pct : ℚ
  total : ℚ
  payment_method : String
deriving DecidableEq, Repr

/-- The tables a request reads and writes. -/
structure Db where
  users : List UserRow
  products : List ProductRow
  pricing : List PriceRow
  stock : List (List Cell)
  sales : List SaleRow
deriving DecidableEq, Repr

/-! ### Lookups (run.py lines 38-52) -/

/-- `lookup_user`: empty for a falsy id, else first row with that `user_id`. -/
def lookupUser (users : List UserRow) (uid : String) : Option UserRow :=
  if uid = "" then none else users.find? (fun u => u.user_id == uid)

/-- Per-row test of `lookup_product`: a truthy `product_id` argument matching
the row, or a truthy `short_id` argument matching the row.  A `None` argument
is encoded as `""` (both are falsy). -/
def productPred (pid sid : String) (p : ProductRow) : Bool :=
  (pid != "" && p.product_id == pid) || (sid != "" && p.short_id == sid)

/-- `lookup_product`: single scan, first row matching either key. -/
def lookupProduct (rows : List ProductRow) (pid sid : String) : Option ProductRow :=
  rows.find? (productPred pid sid)

/-! ### Reseller price resolution (run.py lines 54-73)

The loop keeps the running best in `best`.  When a further candidate is
examined while `best` is nonempty, line 71 re-parses the raw string
`best.get("valid_from","1970-01-01")` with a bare `fromisoformat` that sits
outside the surrounding `try` blocks, so an empty or unparseable stored
`valid_from` raises `ValueError` out of the whole lookup; this is modelled by
`Except.error ()`. -/

def lrpGo (rid pid : String) (d : Nat) :
    List PriceRow → Option PriceRow → Except Unit (Option PriceRow)
  | [], best => .ok best
  | r :: rs, best =>
    if r.reseller_id ≠ rid ∨ r.product_id ≠ pid then lrpGo rid pid d rs best
    else if vfDate r.valid_from ≤ d ∧ d ≤ vtDate r.valid_to then
      match best with
      | none => lrpGo rid pid d rs (some r)
      | some b =>
        match parseISODate b.valid_from with
        | none => .error ()
        | some m =>
          lrpGo rid pid d rs (some (if m ≤ vfDate r.valid_from then r else b))
    else lrpGo rid pid d rs best

/-- `lookup_reseller_price` for an explicit `on_date` (the handlers pass the
current date).  `Except.ok none` is the empty dict `{}`. -/
def lookupResellerPrice (rows : List PriceRow) (rid pid : String) (d : Nat) :
    Except Unit (Option PriceRow) :=
  lrpGo rid pid d rows none

/-! ### Stock adjustment (run.py lines 149-161 and 189-201)

The source wraps the three `hdr.index(...)` calls and the whole scan loop in
one `try` whose `except ValueError: pass` skips the adjustment.  Both a
missing header column (`list.index` raises `ValueError`) and a non-numeric
quantity cell (`float` raises `ValueError`) therefore land in the same
handler.  `adjustStockCore` is the body of that `try`; `adjustStock` applies
the handler, returning the table unchanged on `ValueError`. -/

/-- Python `list.index`: position of the first cell equal to the string, or
`ValueError` (`none`) when absent. -/
def idxOf (hdr : List Cell) (name : String) : Option Nat :=
  match hdr with
  | [] => none
  | c :: cs => if c = Cell.str name then some 0 else (idxOf cs name).map (· + 1)

/-- Row test for the scan: `str(pid) == str(product_id) and str(rid) ==
str(reseller_id)` with a short row supplying `""` for a missing cell.
Identifier cells are strings in every reachable table (only the quantity
column is ever overwritten), so cell-level equality with `Cell.str` is the
string comparison the code performs. -/
def rowMatches (pi ri : Nat) (pid rid : String) (r : List Cell) : Bool :=
  r.getD pi (Cell.str "") == Cell.str pid && r.getD ri (Cell.str "") == Cell.str rid

/-- Current quantity of a matched row: `float(r[qty_idx]) if len(r) > qty_idx
and r[qty_idx] != "" else 0.0`; `none` models the `ValueError` raised by
`float` on a non-empty, non-numeric cell. -/
def curQty (qi : Nat) (r : List Cell) : Option ℚ :=
  if qi < r.length ∧ r.getD qi (Cell.str "") ≠ Cell.str "" then
    match r.getD qi (Cell.str "") with
    | Cell.str s => parsePyFloat s
    | Cell.num q => some q
  else some 0

/-- Row padded to header width: `r[:] + [""] * (len(hdr) - len(r))`. -/
def padRow (w : Nat) (r : List Cell) : List Cell :=
  r ++ List.replicate (w - r.length) (Cell.str "")

/-- The scan loop: adjust the first matching row and stop (`break`); rows
after it are untouched.  `Except.error ()` is the `ValueError` from `float`. -/
def findAdjust (pi ri qi w : Nat) (pid rid : String) (qty : Int) :
    List (List Cell) → Except Unit (List (List Cell))
  | [] => .ok []
  | r :: rs =>
    if rowMatches pi ri pid rid r then
      match curQty qi r with
      | none => .error ()
      | some cur => .ok (((padRow w r).set qi (Cell.num (cur - (qty : ℚ)))) :: rs)
    else (findAdjust pi ri qi w pid rid qty rs).map (r :: ·)

/-- Body of the `try` block: resolve the three column indices, then, only for
a truthy `reseller_id`, scan and adjust. -/
def adjustStockCore (stockRows : List (List Cell)) (product_id reseller_id : String)
    (qty : Int) : Except Unit (List (List Cell)) :=
  match stockRows with
  | [] => .ok []
  | hdr :: rows =>
    match idxOf hdr "product_id", idxOf hdr "reseller_id", idxOf hdr "reseller_qty" with
    | some pi, some ri, some qi =>
      if reseller_id ≠ "" then
        (findAdjust pi ri qi hdr.length product_id reseller_id qty rows).map (hdr :: ·)
      else .ok (hdr :: rows)
    | _, _, _ => .error ()

/-- The full adjustment including the `except ValueError: pass` handler. -/
def adjustStock (stockRows : List (List Cell)) (product_id reseller_id : String)
    (qty : Int) : List (List Cell) :=
  match adjustStockCore stockRows product_id reseller_id qty with
  | .ok next => next
  | .error _ => stockRows

/-! ### `/pos/stock` (run.py lines 116-125) -/

/-- Field access after `to_dicts`: `none` when the header lacks the column
(Python `dict.get` returning `None`), else the cell (short rows give `""`).
Headers are assumed to have distinct names, as the spec's record mapper
requires. -/
def dictGet (hdr : List Cell) (r : List Cell) (field : String) : Option Cell :=
  (idxOf hdr field).map (fun i => r.getD i (Cell.str ""))

/-- `get_stock`: with a truthy `user_id` the code looks the user up and then
filters by `u.get("user_id")` — the user's own id, not the user's
`reseller_id` association; with only a truthy `reseller_id` it filters by it;
otherwise it returns every row.  Rows are returned raw where the code returns
their dict forms (same selection, same order). -/
def getStock (db : Db) (reseller_id user_id : String) : List (List Cell) :=
  match db.stock with
  | [] => []
  | hdr :: rows =>
    if user_id ≠ "" then
      match lookupUser db.users user_id with
      | some u =>
        if u.user_id ≠ "" then
          rows.filter (fun r => dictGet hdr r "reseller_id" == some (Cell.str u.user_id))
        else rows
      | none => rows
    else if reseller_id ≠ "" then
      rows.filter (fun r => dictGet hdr r "reseller_id" == some (Cell.str reseller_id))
    else rows

/-! ### Price and quantity coercion in the sale handlers -/

/-- The resolved price (run.py lines 142-143):
`try: float(rp.get("price") or prod.get("base_price") or 0)
except: float(prod.get("base_price") or 0)`.
`rpPrice` is `""` when no reseller price was resolved or its cell is empty
(both are falsy, as is `None`).  `none` models the uncaught `ValueError` from
the `except` branch when `base_price` is non-empty and non-numeric. -/
def parsePrice (rpPrice basePrice : String) : Option ℚ :=
  let chain := if rpPrice ≠ "" then some rpPrice
               else if basePrice ≠ "" then some basePrice else none
  match chain with
  | none => some 0
  | some s =>
    match parsePyFloat s with
    | some v => some v
    | none => if basePrice = "" then some 0 else parsePyFloat basePrice

/-- The resolved commission (run.py lines 144-145):
`try: float(rp.get("commission_pct") or 0) except: 0.0` — never raises. -/
def parseCommission (c : String) : ℚ :=
  if c = "" then 0 else (parsePyFloat c).getD 0

/-- `int(p.get("qty", 1))` (run.py line 132): an absent field defaults to 1,
a present field is converted by `int`, whose `ValueError` is uncaught. -/
def parseQtyField (q : Option String) : Option Int :=
  match q with
  | none => some 1
  | some s => parsePyInt s

/-! ### `/pos/sale` (run.py lines 127-163) -/

/-- How a request can fail: `ValueError` escaping to a server error, the
400 validation `HTTPException`, or the 404 not-found `HTTPException`. -/
inductive PosErr where
  | valueError
  | validation
  | notFound
deriving DecidableEq, Repr

/-- Request body of `/pos/sale` with the handler's defaults; `""` encodes an
absent (falsy) identifier and `none` an absent `qty`. -/
structure SalePayload where
  user_id : String := ""
  reseller_id : String := ""
  product_id : String := ""
  short_id : String := ""
  qty : Option String := none
  customer_id : String := "C-000"
  payment_method : String := "cash"
deriving DecidableEq, Repr

/-- Response body of `/pos/sale` (the constant `status: "ok"` is omitted). -/
structure SaleResult where
  total : ℚ
  price : ℚ
  commission_pct : ℚ
  customer_id : String
  payment_method : String
deriving DecidableEq, Repr

/-- The `/pos/sale` handler.  Source order is kept: the unguarded `int` on
`qty` runs before the product_id/short_id validation; the sale row is
appended and then the stock adjustment runs with its swallowed `ValueError`.
`today` is the current date's code. -/
def posSale (today : Nat) (db : Db) (p : SalePayload) :
    Except PosErr (SaleResult × Db) :=
  match parseQtyField p.qty with
  | none => .error .valueError
  | some qty =>
    if p.product_id = "" ∧ p.short_id = "" then .error .validation
    else
      let u := lookupUser db.users p.user_id
      let person_entity_id := (u.map UserRow.person_entity_id).getD ""
      match lookupProduct db.products p.product_id p.short_id with
      | none => .error .notFound
      | some prod =>
        match lookupResellerPrice db.pricing p.reseller_id prod.product_id today with
        | .error _ => .error .valueError
        | .ok rp =>
          match parsePrice ((rp.map PriceRow.price).getD "") prod.base_price with
          | none => .error .valueError
          | some price =>
            let commission_pct := parseCommission ((rp.map PriceRow.commission_pct).getD "")
            let total := price * (qty : ℚ)
            let row : SaleRow :=
              { user_id := p.user_id, person_entity_id := person_entity_id,
                customer_id := p.customer_id, product_id := prod.product_id,
                short_id := prod.short_id, qty := qty, price := price,
                commission_pct := commission_pct, total := total,
                payment_method := p.payment_method }
            let stock2 := adjustStock db.stock prod.product_id p.reseller_id qty
            .ok ({ total := total, price := price, commission_pct := commission_pct,
                   customer_id := p.customer_id, payment_method := p.payment_method },
                 { db with sales := db.sales ++ [row], stock := stock2 })

/-! ### `/pos/checkout` (run.py lines 165-203) -/

/-- One item of a checkout request. -/
structure Item where
  product_id : String := ""
  short_id : String := ""
  qty : Option String := none
deriving DecidableEq, Repr

/-- Request body of `/pos/checkout` with the handler's defaults. -/
structure CheckoutPayload where
  user_id : String := ""
  reseller_id : String := ""
  customer_id : String := "C-000"
  payment_method : String := "cash"
  items : List Item := []
deriving DecidableEq, Repr

/-- Response body of `/pos/checkout`. -/
structure CheckoutResult where
  total : ℚ
  lines : Nat
  customer_id : String
  payment_method : String
deriving DecidableEq, Repr

/-- Per-request context shared by every line of a checkout; the person entity
is resolved once, before the loop (run.py line 174). -/
structure LineCtx where
  user_id : String
  person_entity_id : String
  reseller_id : String
  customer_id : String
  payment_method : String
deriving DecidableEq, Repr

/-- The context `checkout` builds from its payload. -/
def ctxOf (db : Db) (p : CheckoutPayload) : LineCtx :=
  { user_id := p.user_id,
    person_entity_id := ((lookupUser db.users p.user_id).map UserRow.person_entity_id).getD "",
    reseller_id := p.reseller_id,
    customer_id := p.customer_id,
    payment_method := p.payment_method }

/-- One loop iteration of `checkout` (run.py lines 176-201): resolve the
product (404 aborts before the item's `qty` is parsed), price it, append its
sale row, adjust stock.  Returns the appended row, the line total and the new
store state. -/
def processItem (today : Nat) (cx : LineCtx) (db : Db) (it : Item) :
    Except PosErr (SaleRow × ℚ × Db) :=
  match lookupProduct db.products it.product_id it.short_id with
  | none => .error .notFound
  | some prod =>
    match parseQtyField it.qty with
    | none => .error .valueError
    | some qty =>
      match lookupResellerPrice db.pricing cx.reseller_id prod.product_id today with
      | .error _ => .error .valueError
      | .ok rp =>
        match parsePrice ((rp.map PriceRow.price).getD "") prod.base_price with
        | none => .error .valueError
        | some price =>
          let commission_pct := parseCommission ((rp.map PriceRow.commission_pct).getD "")
          let total := price * (qty : ℚ)
          let row : SaleRow :=
            { user_id := cx.user_id, person_entity_id := cx.person_entity_id,
              customer_id := cx.customer_id, product_id := prod.product_id,
              short_id := prod.short_id, qty := qty, price := price,
              commission_pct := commission_pct, total := total,
              payment_method := cx.payment_method }
          let stock2 := adjustStock db.stock prod.product_id cx.reseller_id qty
          .ok (row, total, { db with sales := db.sales ++ [row], stock := stock2 })

/-- The checkout loop: items processed in order, grand total and line count
accumulated; the first failing item aborts with the store state reached so
far (already-written rows stay written). -/
def checkoutGo (today : Nat) (cx : LineCtx) :
    Db → ℚ → Nat → List Item → Db × Except PosErr (ℚ × Nat)
  | db, acc, n, [] => (db, .ok (acc, n))
  | db, acc, n, it :: rest =>
    match processItem today cx db it with
    | .error e => (db, .error e)
    | .ok (_, total, db2) => checkoutGo today cx db2 (acc + total) (n + 1) rest

/-- The `/pos/checkout` handler.  An empty item list is the 400 validation
error; otherwise the loop runs and the final store state is returned beside
the result or the aborting error. -/
def checkout (today : Nat) (db : Db) (p : CheckoutPayload) :
    Db × Except PosErr CheckoutResult :=
  if p.items = [] then (db, .error .validation)
  else
    let r := checkoutGo today (ctxOf db p) db 0 0 p.items
    (r.1, r.2.map (fun g =>
      { total := g.1, lines := g.2,
        customer_id := p.customer_id, payment_method := p.payment_method }))

/-! ### Specification helpers for the pricing resolver -/

/-- A row is a candidate for `(rid, pid, d)`: both keys match and the
fallback-parsed validity window contains `d`. -/
def candB (rid pid : String) (d : Nat) (r : PriceRow) : Bool :=
  r.reseller_id == rid && r.product_id == pid &&
    decide (vfDate r.valid_from ≤ d) && decide (d ≤ vtDate r.valid_to)

/-- One update of the loop's running best: an empty best is replaced, a
nonempty best is replaced when the newcomer's effective `valid_from` is at
least as late (the `>=` of run.py line 71). -/
def pickStep (best : Option PriceRow) (r : PriceRow) : Option PriceRow :=
  match best with
  | none => some r
  | some b => if vfDate b.valid_from ≤ vfDate r.valid_from then some r else some b

/-- Loop step when the candidate's `valid_from` re-parse succeeds. -/
theorem lrpGo_cons_some (rid pid : String) (d : Nat) (r : PriceRow) (rs : List PriceRow)
    (b : PriceRow) (m : Nat)
    (hkey : ¬(r.reseller_id ≠ rid ∨ r.product_id ≠ pid))
    (hwin : vfDate r.valid_from ≤ d ∧ d ≤ vtDate r.valid_to)
    (hm : parseISODate b.valid_from = some m) :
    lrpGo rid pid d (r :: rs) (some b)
      = lrpGo rid pid d rs (some (if m ≤ vfDate r.valid_from then r else b)) := by
  rw [lrpGo.eq_def]
  simp only [if_neg hkey, if_pos hwin, hm]

/-- Loop step for the first qualifying candidate. -/
theorem lrpGo_cons_none (rid pid : String) (d : Nat) (r : PriceRow) (rs : List PriceRow)
    (hkey : ¬(r.reseller_id ≠ rid ∨ r.product_id ≠ pid))
    (hwin : vfDate r.valid_from ≤ d ∧ d ≤ vtDate r.valid_to) :
    lrpGo rid pid d (r :: rs) none = lrpGo rid pid d rs (some r) := by
  rw [lrpGo.eq_def]
  simp only [if_neg hkey, if_pos hwin]

/-- Loop step for a key mismatch (the `continue` of run.py line 61). -/
theorem lrpGo_cons_skip (rid pid : String) (d : Nat) (r : PriceRow) (rs : List PriceRow)
    (best : Option PriceRow)
    (hkey : r.reseller_id ≠ rid ∨ r.product_id ≠ pid) :
    lrpGo rid pid d (r :: rs) best = lrpGo rid pid d rs best := by
  rw [lrpGo.eq_def]
  simp only [if_pos hkey]

/-- Loop step for a window that does not contain the date. -/
theorem lrpGo_cons_nowin (rid pid : String) (d : Nat) (r : PriceRow) (rs : List PriceRow)
    (best : Option PriceRow)
    (hkey : ¬(r.reseller_id ≠ rid ∨ r.product_id ≠ pid))
    (hwin : ¬(vfDate r.valid_from ≤ d ∧ d ≤ vtDate r.valid_to)) :
    lrpGo rid pid d (r :: rs) best = lrpGo rid pid d rs best := by
  rw [lrpGo.eq_def]
  simp only [if_neg hkey, if_neg hwin]

theorem pickStep_isSome (best : Option PriceRow) (r : PriceRow) :
    ∃ c, pickStep best r = some c := by
  cases best with
  | none => exact ⟨r, rfl⟩
  | some b =>
    rw [pickStep]
    split
    · exact ⟨r, rfl⟩
    · exact ⟨b, rfl⟩

theorem foldl_pickStep_some (l : List PriceRow) :
    ∀ b : PriceRow, ∃ c, l.foldl pickStep (some b) = some c := by
  induction l with
  | nil => exact fun b => ⟨b, rfl⟩
  | cons x xs ih =>
    intro b
    rw [List.foldl_cons, pickStep]
    split
    · exact ih x
    · exact ih b

theorem foldl_pickStep_none (l : List PriceRow)
    (h : l.foldl pickStep none = none) : l = [] := by
  cases l with
  | nil => rfl
  | cons x xs =>
    rw [List.foldl_cons] at h
    obtain ⟨c, hc⟩ := foldl_pickStep_some xs x
    rw [show pickStep none x = some x from rfl] at h
    rw [hc] at h
    cases h

theorem foldl_pickStep_spec (l : List PriceRow) :
    ∀ (best : Option PriceRow) (c : PriceRow),
      l.foldl pickStep best = some c →
      (c ∈ l ∨ best = some c) ∧
      (∀ x ∈ l, vfDate x.valid_from ≤ vfDate c.valid_from) ∧
      (∀ b, best = some b → vfDate b.valid_from ≤ vfDate c.valid_from) := by
  induction l with
  | nil =>
    intro best c h
    refine ⟨Or.inr h, by simp, ?_⟩
    intro b hb
    rw [hb] at h
    cases h
    exact le_refl _
  | cons x xs ih =>
    intro best c h
    rw [List.foldl_cons] at h
    obtain ⟨hmem, hmax, hbest⟩ := ih (pickStep best x) c h
    have hx : vfDate x.valid_from ≤ vfDate c.valid_from := by
      cases best with
      | none => exact hbest x rfl
      | some b =>
        rw [pickStep] at h hbest
        by_cases hle : vfDate b.valid_from ≤ vfDate x.valid_from
        · exact hbest x (by rw [if_pos hle])
        · exact le_trans (le_of_not_le hle) (hbest b (by rw [if_neg hle]))
    refine ⟨?_, ?_, ?_⟩
    · rcases hmem with hc | hc
      · exact Or.inl (List.mem_cons_of_mem x hc)
      · cases best with
        | none =>
          rw [pickStep] at hc
          cases hc
          exact Or.inl (List.mem_cons_self _ _)
        | some b =>
          rw [pickStep] at hc
          split at hc
          · cases hc
            exact Or.inl (List.mem_cons_self _ _)
          · exact Or.inr hc
    · intro y hy
      rcases List.mem_cons.mp hy with hy | hy
      · rw [hy]; exact hx
      · exact hmax y hy
    · intro b hb
      rw [hb] at hbest
      by_cases hle : vfDate b.valid_from ≤ vfDate x.valid_from
      · exact le_trans hle hx
      · exact hbest b (by rw [pickStep, if_neg hle])

/-- The loop of `lookup_reseller_price` agrees with the `pickStep` fold over
the candidate rows, provided every stored best can be re-parsed (the bare
`fromisoformat` of run.py line 71). -/
theorem lrpGo_eq_fold (rid pid : String) (d : Nat) (rows : List PriceRow) :
    ∀ best : Option PriceRow,
      (∀ b, best = some b → (parseISODate b.valid_from).isSome = true) →
      (∀ r ∈ rows, candB rid pid d r = true → (parseISODate r.valid_from).isSome = true) →
      lrpGo rid pid d rows best
        = Except.ok ((rows.filter (candB rid pid d)).foldl pickStep best) := by
  induction rows with
  | nil => intro best _ _; rfl
  | cons r rs ih =>
    intro best hb hr
    by_cases hkey : r.reseller_id = rid ∧ r.product_id = pid
    · by_cases hwin : vfDate r.valid_from ≤ d ∧ d ≤ vtDate r.valid_to
      · have hcand : candB rid pid d r = true := by
          simp [candB, hkey.1, hkey.2, hwin.1, hwin.2]
        have hrparse : (parseISODate r.valid_from).isSome = true :=
          hr r (List.mem_cons_self _ _) hcand
        have hnkey : ¬(r.reseller_id ≠ rid ∨ r.product_id ≠ pid) := by
          push_neg
          exact hkey
        rw [List.filter_cons_of_pos hcand, List.foldl_cons]
        cases best with
        | none =>
          rw [lrpGo_cons_none rid pid d r rs hnkey hwin]
          exact ih (some r) (fun b hbb => by cases hbb; exact hrparse)
            (fun x hx hc => hr x (List.mem_cons_of_mem r hx) hc)
        | some b =>
          have hbp := hb b rfl
          obtain ⟨m, hm⟩ := Option.isSome_iff_exists.mp hbp
          have hmv : vfDate b.valid_from = m := by rw [vfDate, hm]; rfl
          rw [lrpGo_cons_some rid pid d r rs b m hnkey hwin hm]
          have hstep : pickStep (some b) r
              = some (if m ≤ vfDate r.valid_from then r else b) := by
            rw [pickStep, hmv]
            split
            · rfl
            · rfl
          rw [hstep]
          refine ih _ ?_ (fun x hx hc => hr x (List.mem_cons_of_mem r hx) hc)
          intro c hc
          cases hc
          split
          · exact hrparse
          · exact hbp
      · have hcand : candB rid pid d r = false := by
          rcases not_and_or.mp hwin with hw | hw
          · simp [candB, hw]
          · simp [candB, hw]
        have hnkey : ¬(r.reseller_id ≠ rid ∨ r.product_id ≠ pid) := by
          push_neg
          exact hkey
        rw [List.filter_cons_of_neg (by simp [hcand]),
          lrpGo_cons_nowin rid pid d r rs best hnkey hwin]
        exact ih best hb (fun x hx hc => hr x (List.mem_cons_of_mem r hx) hc)
    · have hcand : candB rid pid d r = false := by
        rcases not_and_or.mp hkey with hw | hw
        · simp [candB, hw]
        · simp [candB, hw]
      have hkey2 : r.reseller_id ≠ rid ∨ r.product_id ≠ pid := not_and_or.mp hkey
      rw [List.filter_cons_of_neg (by simp [hcand]),
        lrpGo_cons_skip rid pid d r rs best hkey2]
      exact ih best hb (fun x hx hc => hr x (List.mem_cons_of_mem r hx) hc)

/-- C1, amended.  Provided every candidate row (matching keys, window
containing the date) has a parseable `valid_from`, `lookup_reseller_price`
returns a candidate whose effective `valid_from` is latest among all
candidates, and the empty record when no candidate's window contains the
date.  Without that proviso the re-parse of run.py line 71 can raise instead
of returning (see `lookup_reseller_price_reparse_crash`). -/
theorem lookup_reseller_price_latest_valid_from (rows : List PriceRow)
    (rid pid : String) (d : Nat)
    (hp : ∀ r ∈ rows, candB rid pid d r = true → (parseISODate r.valid_from).isSome = true) :
    (rows.filter (candB rid pid d) = [] ∧
      lookupResellerPrice rows rid pid d = Except.ok none) ∨
    (∃ b, lookupResellerPrice rows rid pid d = Except.ok (some b) ∧
      b ∈ rows.filter (candB rid pid d) ∧
      ∀ c ∈ rows.filter (candB rid pid d),
        vfDate c.valid_from ≤ vfDate b.valid_from) := by
  have heq := lrpGo_eq_fold rid pid d rows none (by intro b hb; cases hb) hp
  rw [lookupResellerPrice]
  cases hfl : (rows.filter (candB rid pid d)).foldl pickStep none with
  | none =>
    left
    have hnil := foldl_pickStep_none _ hfl
    rw [heq, hfl]
    exact ⟨hnil, rfl⟩
  | some b =>
    right
    obtain ⟨hmem, hmax, _⟩ := foldl_pickStep_spec _ none b hfl
    refine ⟨b, ?_, ?_, hmax⟩
    · rw [heq, hfl]
    · rcases hmem with hmem | hmem
      · exact hmem
      · cases hmem

/-- Witness for `lookup_reseller_price_latest_valid_from`: the spec's own
example — overlapping windows, the later `valid_from` wins at 2024-07-01. -/
theorem lookup_reseller_price_latest_valid_from_w :
    (([⟨"R", "P", "2024-01-01", "2024-12-31", "100", "5"⟩,
       ⟨"R", "P", "2024-06-01", "2024-12-31", "90", "5"⟩] : List PriceRow).filter
         (candB "R" "P" 20240701) = [] ∧
      lookupResellerPrice
        [⟨"R", "P", "2024-01-01", "2024-12-31", "100", "5"⟩,
         ⟨"R", "P", "2024-06-01", "2024-12-31", "90", "5"⟩] "R" "P" 20240701
        = Except.ok none) ∨
    (∃ b, lookupResellerPrice
        [⟨"R", "P", "2024-01-01", "2024-12-31", "100", "5"⟩,
         ⟨"R", "P", "2024-06-01", "2024-12-31", "90", "5"⟩] "R" "P" 20240701
        = Except.ok (some b) ∧
      b ∈ ([⟨"R", "P", "2024-01-01", "2024-12-31", "100", "5"⟩,
            ⟨"R", "P", "2024-06-01", "2024-12-31", "90", "5"⟩] : List PriceRow).filter
             (candB "R" "P" 20240701) ∧
      ∀ c ∈ ([⟨"R", "P", "2024-01-01", "2024-12-31", "100", "5"⟩,
              ⟨"R", "P", "2024-06-01", "2024-12-31", "90", "5"⟩] : List PriceRow).filter
               (candB "R" "P" 20240701),
        vfDate c.valid_from ≤ vfDate b.valid_from) :=
  lookup_reseller_price_latest_valid_from _ "R" "P" 20240701 (by decide)

/-- C1, counterexample to the claim as stated: two rows match the key and
contain the date, the first one's `valid_from` is unparseable, so the bare
re-parse of run.py line 71 raises `ValueError` and the lookup returns
neither a candidate nor the empty record. -/
theorem lookup_reseller_price_reparse_crash :
    lookupResellerPrice
      [⟨"R2", "P2", "??", "", "", ""⟩, ⟨"R2", "P2", "2023-01-01", "", "", ""⟩]
      "R2" "P2" 20230601 = Except.error () := by
  rfl

/-! ### Product lookup: scan order, not key precedence (C9) -/

/-- C9.  With both keys supplied, `lookup_product` is the single-scan first
match on either key: scan order decides precedence, and the empty record
comes back exactly when no row matches either key. -/
theorem lookup_product_scan_order (rows : List ProductRow) (pid sid : String)
    (hp : pid ≠ "") (hs : sid ≠ "") :
    lookupProduct rows pid sid
      = rows.find? (fun p => p.product_id == pid || p.short_id == sid) ∧
    (lookupProduct rows pid sid = none ↔
      ∀ p ∈ rows, p.product_id ≠ pid ∧ p.short_id ≠ sid) := by
  have hpred : productPred pid sid
      = fun p => p.product_id == pid || p.short_id == sid := by
    funext p
    have h1 : (pid != "") = true := bne_iff_ne.mpr hp
    have h2 : (sid != "") = true := bne_iff_ne.mpr hs
    rw [productPred, h1, h2, Bool.true_and, Bool.true_and]
  constructor
  · rw [lookupProduct, hpred]
  · rw [lookupProduct, hpred, List.find?_eq_none]
    constructor
    · intro h p hmem
      have := h p hmem
      simp at this
      exact this
    · intro h p hmem
      simp
      exact h p hmem

/-- Witness for `lookup_product_scan_order`: a row matching `short_id`
precedes the row matching `product_id`, and the earlier (short-id) row is the
one returned. -/
theorem lookup_product_scan_order_w :
    (lookupProduct [⟨"P0", "S9", "1"⟩, ⟨"P1", "SZ", "2"⟩] "P1" "S9"
      = ([⟨"P0", "S9", "1"⟩, ⟨"P1", "SZ", "2"⟩] : List ProductRow).find?
          (fun p => p.product_id == "P1" || p.short_id == "S9") ∧
    (lookupProduct [⟨"P0", "S9", "1"⟩, ⟨"P1", "SZ", "2"⟩] "P1" "S9" = none ↔
      ∀ p ∈ ([⟨"P0", "S9", "1"⟩, ⟨"P1", "SZ", "2"⟩] : List ProductRow),
        p.product_id ≠ "P1" ∧ p.short_id ≠ "S9")) ∧
    lookupProduct [⟨"P0", "S9", "1"⟩, ⟨"P1", "SZ", "2"⟩] "P1" "S9"
      = some ⟨"P0", "S9", "1"⟩ :=
  ⟨lookup_product_scan_order _ "P1" "S9" (by decide) (by decide), by rfl⟩

/-! ### `/pos/stock` filters by the wrong field (C4) -/

/-- C4.  User `U-7` is associated with reseller `R-2` and one stock row
belongs to `R-2`, yet `get_stock` with `user_id = "U-7"` returns nothing: it
filters by the looked-up user's `user_id` (run.py line 121), not by the
user's `reseller_id` association; filtering by `R-2` directly does return
the row. -/
theorem get_stock_filters_by_user_id_bug :
    lookupUser [⟨"U-7", "PE-1", "R-2"⟩] "U-7" = some ⟨"U-7", "PE-1", "R-2"⟩ ∧
    getStock ⟨[⟨"U-7", "PE-1", "R-2"⟩], [], [],
      [[Cell.str "product_id", Cell.str "reseller_id", Cell.str "reseller_qty"],
       [Cell.str "P1", Cell.str "R-2", Cell.str "5"]], []⟩ "" "U-7" = [] ∧
    getStock ⟨[⟨"U-7", "PE-1", "R-2"⟩], [], [],
      [[Cell.str "product_id", Cell.str "reseller_id", Cell.str "reseller_qty"],
       [Cell.str "P1", Cell.str "R-2", Cell.str "5"]], []⟩ "R-2" ""
      = [[Cell.str "P1", Cell.str "R-2", Cell.str "5"]] :=
  ⟨rfl, rfl, rfl⟩

/-! ### Validation and numeric fallbacks in `/pos/sale` (C2, C8) -/

/-- C8, amended.  When neither identifying key is supplied and the request's
`qty` field is absent or parses as an integer, the handler fails with the
validation error — for every store state, so no store content can influence
it (and the handler touches the store only after this check).  A `qty` the
unguarded `int` cannot parse makes the request fail before the validation
check instead (see `missing_ids_qty_cex`). -/
theorem missing_ids_validation_amended (today : Nat) (db : Db) (p : SalePayload)
    (q : Int) (h1 : p.product_id = "") (h2 : p.short_id = "")
    (hq : parseQtyField p.qty = some q) :
    posSale today db p = Except.error PosErr.validation := by
  rw [posSale.eq_def, hq]
  simp only [if_pos (And.intro h1 h2)]

/-- Witness for `missing_ids_validation_amended` at a concrete request. -/
theorem missing_ids_validation_amended_w :
    posSale 0 ⟨[], [], [], [], []⟩ { qty := some "2" }
      = Except.error PosErr.validation :=
  missing_ids_validation_amended 0 ⟨[], [], [], [], []⟩ { qty := some "2" } 2
    rfl rfl (by decide)

/-- C8, counterexample to the claim as stated: a request with neither
`product_id` nor `short_id` but a non-numeric `qty` fails with the uncaught
`ValueError` of run.py line 132 (a server error), not with the validation
response. -/
theorem missing_ids_qty_cex :
    posSale 0 ⟨[], [], [], [], []⟩ { qty := some "oops" }
      = Except.error PosErr.valueError ∧
    PosErr.valueError ≠ PosErr.validation :=
  ⟨rfl, by decide⟩

/-- C2, amended.  Empty or non-numeric `price` falls back to `base_price`
when that parses, and to `0` when `base_price` is empty; empty or
non-numeric `commission_pct` falls back to `0`.  But a present `qty` that
`int` cannot parse raises and fails the whole request (run.py line 132 has
no guard), and a non-numeric `base_price` reached by the price fallback
re-raises out of the `except` branch. -/
theorem numeric_fallbacks_amended :
    (∀ s b v, (s = "" ∨ parsePyFloat s = none) → b ≠ "" → parsePyFloat b = some v →
      parsePrice s b = some v) ∧
    (∀ s, (s = "" ∨ parsePyFloat s = none) → parsePrice s "" = some 0) ∧
    (∀ c, (c = "" ∨ parsePyFloat c = none) → parseCommission c = 0) ∧
    (∀ (today : Nat) (db : Db) (p : SalePayload) (s : String),
      p.qty = some s → parsePyInt s = none →
      posSale today db p = Except.error PosErr.valueError) := by
  refine ⟨?_, ?_, ?_, ?_⟩
  · intro s b v hs hb hv
    by_cases hse : s = ""
    · subst hse
      simp [parsePrice, hb, hv]
    · have hsn : parsePyFloat s = none := hs.resolve_left hse
      simp [parsePrice, hse, hb, hsn, hv]
  · intro s hs
    by_cases hse : s = ""
    · subst hse
      simp [parsePrice]
    · have hsn : parsePyFloat s = none := hs.resolve_left hse
      simp [parsePrice, hse, hsn]
  · intro c hc
    by_cases hce : c = ""
    · subst hce
      simp [parseCommission]
    · have hcn : parsePyFloat c = none := hc.resolve_left hce
      simp [parseCommission, hce, hcn]
  · intro today db p s hqs hnone
    have h : parseQtyField p.qty = none := by rw [hqs]; exact hnone
    rw [posSale.eq_def, h]

/-- Witness for `numeric_fallbacks_amended`: a non-numeric reseller price
falls back to a numeric `base_price`, and a non-numeric `qty` fails a
request that names a real product. -/
theorem numeric_fallbacks_amended_w :
    parsePrice "abc" "7.5" = some ((7 : ℚ) + 5 / 10 ^ 1) ∧
    posSale 1 ⟨[], [⟨"P1", "S1", "10"⟩], [], [], []⟩
      { product_id := "P1", qty := some "abc" }
      = Except.error PosErr.valueError :=
  ⟨numeric_fallbacks_amended.1 "abc" "7.5" ((7 : ℚ) + 5 / 10 ^ 1)
      (Or.inr (by rfl)) (by decide) (by rfl),
    numeric_fallbacks_amended.2.2.2 1 ⟨[], [⟨"P1", "S1", "10"⟩], [], [], []⟩
      { product_id := "P1", qty := some "abc" } "abc" rfl (by rfl)⟩

/-- C2, counterexample to the claim as stated: a non-numeric `qty` does fail
the `recordSale` request — the unguarded `int(p.get("qty", 1))` raises before
anything else runs. -/
theorem qty_parse_fails_request :
    parsePyInt "abc" = none ∧
    posSale 0 ⟨[], [⟨"P1", "S1", "10"⟩], [], [], []⟩
      { reseller_id := "R1", product_id := "P1", qty := some "abc" }
      = Except.error PosErr.valueError := by
  constructor
  · rfl
  · rfl

/-! ### Date fallbacks in the pricing resolver (C6) -/

/-- C6, amended.  A matching row whose `valid_from` and `valid_to` do not
parse is treated as valid on the window 1970-01-01 (the Unix epoch, not the
earliest representable date 0001-01-01) through 9999-12-31, and with a single
candidate the resolution does not fail; a date before 1970-01-01 falls
outside the effective window.  With several qualifying candidates an
unparseable stored `valid_from` makes the lookup raise instead (see
`date_fallback_crash_cex`). -/
theorem date_fallback_amended (r : PriceRow) (rid pid : String) (d : Nat)
    (h1 : r.reseller_id = rid) (h2 : r.product_id = pid)
    (h3 : parseISODate r.valid_from = none) (h4 : parseISODate r.valid_to = none) :
    (d19700101 ≤ d ∧ d ≤ d99991231 →
      lookupResellerPrice [r] rid pid d = Except.ok (some r)) ∧
    (d < d19700101 → lookupResellerPrice [r] rid pid d = Except.ok none) := by
  have hvf : vfDate r.valid_from = d19700101 := by rw [vfDate, h3]; rfl
  have hvt : vtDate r.valid_to = d99991231 := by rw [vtDate, h4]; rfl
  have hnkey : ¬(r.reseller_id ≠ rid ∨ r.product_id ≠ pid) := by
    push_neg
    exact ⟨h1, h2⟩
  constructor
  · intro hd
    rw [lookupResellerPrice,
      lrpGo_cons_none rid pid d r [] hnkey (by rw [hvf, hvt]; exact hd)]
    rfl
  · intro hd
    have hwin : ¬(vfDate r.valid_from ≤ d ∧ d ≤ vtDate r.valid_to) := by
      rw [hvf, hvt]
      intro h
      exact absurd h.1 (by omega)
    rw [lookupResellerPrice, lrpGo_cons_nowin rid pid d r [] none hnkey hwin]
    rfl

/-- Witness for `date_fallback_amended` at a concrete unparseable row. -/
theorem date_fallback_amended_w :
    (d19700101 ≤ 20240101 ∧ 20240101 ≤ d99991231 →
      lookupResellerPrice [⟨"R", "P", "junk", "junk", "", ""⟩] "R" "P" 20240101
        = Except.ok (some ⟨"R", "P", "junk", "junk", "", ""⟩)) ∧
    (20240101 < d19700101 →
      lookupResellerPrice [⟨"R", "P", "junk", "junk", "", ""⟩] "R" "P" 20240101
        = Except.ok none) :=
  date_fallback_amended ⟨"R", "P", "junk", "junk", "", ""⟩ "R" "P" 20240101
    rfl rfl (by decide) (by decide)

/-- C6, counterexample to the claim as stated: the first candidate's
unparseable `valid_from` does make the resolution fail once a second
qualifying candidate is examined — run.py line 71 re-parses the stored
string with no fallback. -/
theorem date_fallback_crash_cex :
    lookupResellerPrice
      [⟨"R", "P", "not-a-date", "", "1", "0"⟩, ⟨"R", "P", "2024-05-01", "", "2", "0"⟩]
      "R" "P" 20240601 = Except.error () := by
  rfl

/-! ### Stock adjustment lemmas -/

/-- Scan lemma: with no match before `r`, a matching `r` whose quantity cell
parses, the scan rewrites exactly `r` (padded, quantity set to `cur - qty`)
and leaves every other row — including later duplicates — unchanged. -/
theorem findAdjust_app (pi ri qi w : Nat) (pid rid : String) (qty : Int) :
    ∀ (pre : List (List Cell)) (post : List (List Cell)) (r : List Cell) (cur : ℚ),
      (∀ x ∈ pre, rowMatches pi ri pid rid x = false) →
      rowMatches pi ri pid rid r = true →
      curQty qi r = some cur →
      findAdjust pi ri qi w pid rid qty (pre ++ r :: post)
        = Except.ok (pre ++ ((padRow w r).set qi (Cell.num (cur - (qty : ℚ)))) :: post) := by
  intro pre
  induction pre with
  | nil =>
    intro post r cur _ hmatch hcur
    rw [List.nil_append, findAdjust.eq_def]
    simp only [hmatch, if_pos, hcur]
    rfl
  | cons x xs ih =>
    intro post r cur hpre hmatch hcur
    have hx : rowMatches pi ri pid rid x = false := hpre x (List.mem_cons_self _ _)
    rw [List.cons_append, findAdjust.eq_def]
    simp only [hx, Bool.false_eq_true, if_neg, ite_false]
    rw [ih post r cur (fun y hy => hpre y (List.mem_cons_of_mem x hy)) hmatch hcur]
    rfl

/-- Scan lemma, error case: the first matching row has a non-empty,
non-numeric quantity cell, so `float` raises and the whole scan aborts. -/
theorem findAdjust_app_err (pi ri qi w : Nat) (pid rid : String) (qty : Int) :
    ∀ (pre : List (List Cell)) (post : List (List Cell)) (r : List Cell),
      (∀ x ∈ pre, rowMatches pi ri pid rid x = false) →
      rowMatches pi ri pid rid r = true →
      curQty qi r = none →
      findAdjust pi ri qi w pid rid qty (pre ++ r :: post) = Except.error () := by
  intro pre
  induction pre with
  | nil =>
    intro post r _ hmatch hcur
    rw [List.nil_append, findAdjust.eq_def]
    simp only [hmatch, if_pos, hcur]
  | cons x xs ih =>
    intro post r hpre hmatch hcur
    have hx : rowMatches pi ri pid rid x = false := hpre x (List.mem_cons_self _ _)
    rw [List.cons_append, findAdjust.eq_def]
    simp only [hx, Bool.false_eq_true, if_neg, ite_false]
    rw [ih post r (fun y hy => hpre y (List.mem_cons_of_mem x hy)) hmatch hcur]
    rfl

/-- C5.  With the three columns present, a truthy reseller and a first
matching row (no earlier row matches both keys) whose quantity cell is empty
or parses, `recordSale`'s stock adjustment rewrites exactly that row: its
quantity becomes the parsed current value minus `qty` — negative results
included, nothing floors at zero — and every other row, later duplicates
included, is returned unchanged. -/
theorem stock_adjust_first_match (hdr : List Cell) (pre post : List (List Cell))
    (r : List Cell) (pid rid : String) (qty : Int) (pi ri qi : Nat) (cur : ℚ)
    (hpi : idxOf hdr "product_id" = some pi) (hri : idxOf hdr "reseller_id" = some ri)
    (hqi : idxOf hdr "reseller_qty" = some qi) (hrid : rid ≠ "")
    (hpre : ∀ x ∈ pre, rowMatches pi ri pid rid x = false)
    (hmatch : rowMatches pi ri pid rid r = true)
    (hcur : curQty qi r = some cur) :
    adjustStock (hdr :: (pre ++ r :: post)) pid rid qty
      = hdr :: (pre ++ ((padRow hdr.length r).set qi (Cell.num (cur - (qty : ℚ)))) :: post) := by
  rw [adjustStock, adjustStockCore.eq_def]
  simp only [hpi, hri, hqi, if_pos hrid]
  rw [findAdjust_app pi ri qi hdr.length pid rid qty pre post r cur hpre hmatch hcur]
  rfl

/-- Witness for `stock_adjust_first_match`: current quantity 2, sale of 5,
a later duplicate row for the same product and reseller; the first row's
quantity becomes the negative value `2 - 5` and the duplicate is untouched. -/
theorem stock_adjust_first_match_w :
    adjustStock
      [[Cell.str "product_id", Cell.str "reseller_id", Cell.str "reseller_qty"],
       [Cell.str "P1", Cell.str "R-2", Cell.str "2"],
       [Cell.str "P1", Cell.str "R-2", Cell.str "9"]] "P1" "R-2" 5
      = [Cell.str "product_id", Cell.str "reseller_id", Cell.str "reseller_qty"]
        :: ([] ++ ((padRow 3 [Cell.str "P1", Cell.str "R-2", Cell.str "2"]).set 2
              (Cell.num ((2 : ℚ) - ((5 : ℤ) : ℚ))))
           :: [[Cell.str "P1", Cell.str "R-2", Cell.str "9"]]) :=
  stock_adjust_first_match
    [Cell.str "product_id", Cell.str "reseller_id", Cell.str "reseller_qty"]
    [] [[Cell.str "P1", Cell.str "R-2", Cell.str "9"]]
    [Cell.str "P1", Cell.str "R-2", Cell.str "2"] "P1" "R-2" 5 0 1 2 2
    rfl rfl rfl (by decide) (by intro x hx; cases hx) rfl rfl

/-! ### Inversion of a successful `/pos/sale` -/

/-- What a successful `/pos/sale` request did: the parsed quantity, resolved
product, resolved reseller price and parsed price exist, the response carries
`total = price * qty`, and the new store state has exactly one appended sale
row and the adjusted stock. -/
theorem posSale_ok_inv (today : Nat) (db : Db) (p : SalePayload)
    (res : SaleResult) (db2 : Db)
    (h : posSale today db p = Except.ok (res, db2)) :
    ∃ q prod rp price,
      parseQtyField p.qty = some q ∧
      lookupProduct db.products p.product_id p.short_id = some prod ∧
      lookupResellerPrice db.pricing p.reseller_id prod.product_id today = Except.ok rp ∧
      parsePrice ((rp.map PriceRow.price).getD "") prod.base_price = some price ∧
      res = { total := price * (q : ℚ), price := price,
              commission_pct := parseCommission ((rp.map PriceRow.commission_pct).getD ""),
              customer_id := p.customer_id, payment_method := p.payment_method } ∧
      db2 = { db with
              sales := db.sales ++
                [{ user_id := p.user_id,
                   person_entity_id :=
                     ((lookupUser db.users p.user_id).map UserRow.person_entity_id).getD "",
                   customer_id := p.customer_id, product_id := prod.product_id,
                   short_id := prod.short_id, qty := q, price := price,
                   commission_pct := parseCommission ((rp.map PriceRow.commission_pct).getD ""),
                   total := price * (q : ℚ), payment_method := p.payment_method }],
              stock := adjustStock db.stock prod.product_id p.reseller_id q } := by
  rw [posSale.eq_def] at h
  split at h
  · exact Except.noConfusion h
  · rename_i q hq
    split at h
    · exact Except.noConfusion h
    · split at h
      · exact Except.noConfusion h
      · rename_i prod hprod
        split at h
        · exact Except.noConfusion h
        · rename_i rp hrp
          split at h
          · exact Except.noConfusion h
          · rename_i price hprice
            rw [Except.ok.injEq, Prod.mk.injEq] at h
            exact ⟨q, prod, rp, price, hq, hprod, hrp, hprice, h.1.symm, h.2.symm⟩

/-! ### C10: a bad quantity cell silently skips the whole adjustment -/

/-- C10.  When the first stock row matching the sale's product and reseller
has a non-empty quantity cell that `float` cannot parse, the body of the
`try` block raises the same `ValueError` a missing header column would raise,
the shared `except ValueError: pass` handler swallows it, the stock table is
left completely unchanged — and the sale request itself still succeeds, its
sale row appended. -/
theorem stock_adjust_bad_qty_skipped (hdr : List Cell) (pre post : List (List Cell))
    (r : List Cell) (pid rid : String) (q : Int) (pi ri qi : Nat)
    (today : Nat) (db : Db) (p : SalePayload) (prod : ProductRow)
    (res : SaleResult) (db2 : Db)
    (hpi : idxOf hdr "product_id" = some pi) (hri : idxOf hdr "reseller_id" = some ri)
    (hqi : idxOf hdr "reseller_qty" = some qi) (hrid : rid ≠ "")
    (hpre : ∀ x ∈ pre, rowMatches pi ri pid rid x = false)
    (hmatch : rowMatches pi ri pid rid r = true)
    (hcur : curQty qi r = none)
    (hstock : db.stock = hdr :: (pre ++ r :: post))
    (hq : parseQtyField p.qty = some q)
    (hprod : lookupProduct db.products p.product_id p.short_id = some prod)
    (hpid : prod.product_id = pid) (hprid : p.reseller_id = rid)
    (hok : posSale today db p = Except.ok (res, db2)) :
    adjustStockCore (hdr :: (pre ++ r :: post)) pid rid q = Except.error () ∧
    db2.stock = db.stock ∧
    db2.sales.length = db.sales.length + 1 := by
  have hcore : adjustStockCore (hdr :: (pre ++ r :: post)) pid rid q = Except.error () := by
    rw [adjustStockCore.eq_def]
    simp only [hpi, hri, hqi, if_pos hrid]
    rw [findAdjust_app_err pi ri qi hdr.length pid rid q pre post r hpre hmatch hcur]
    rfl
  have hadj : adjustStock db.stock pid rid q = db.stock := by
    rw [hstock, adjustStock, hcore]
  obtain ⟨q2, prod2, rp, price, hq2, hprod2, _, _, _, hdb2⟩ :=
    posSale_ok_inv today db p res db2 hok
  have hqq : q2 = q := by
    rw [hq] at hq2
    exact (Option.some_inj.mp hq2).symm
  have hpp : prod2 = prod := by
    rw [hprod] at hprod2
    exact (Option.some_inj.mp hprod2).symm
  rw [hqq, hpp] at hdb2
  refine ⟨hcore, ?_, ?_⟩
  · rw [hdb2]
    show adjustStock db.stock prod.product_id p.reseller_id q = db.stock
    rw [hpid, hprid, hadj]
  · rw [hdb2]
    simp

/-- Witness for `stock_adjust_bad_qty_skipped`: product `P1`, reseller `R-2`,
one stock row whose quantity cell is the unparseable `"bad"`; the sale
succeeds, the stock is untouched. -/
theorem stock_adjust_bad_qty_skipped_w :
    adjustStockCore
      [[Cell.str "product_id", Cell.str "reseller_id", Cell.str "reseller_qty"],
       [Cell.str "P1", Cell.str "R-2", Cell.str "bad"]] "P1" "R-2" 1
      = Except.error () ∧
    (⟨[], [⟨"P1", "S1", "10"⟩], [],
      [[Cell.str "product_id", Cell.str "reseller_id", Cell.str "reseller_qty"],
       [Cell.str "P1", Cell.str "R-2", Cell.str "bad"]],
      [{ user_id := "", person_entity_id := "", customer_id := "C-000",
         product_id := "P1", short_id := "S1", qty := 1, price := (10 : ℚ),
         commission_pct := 0, total := (10 : ℚ) * ((1 : ℤ) : ℚ),
         payment_method := "cash" }]⟩ : Db).stock
      = (⟨[], [⟨"P1", "S1", "10"⟩], [],
          [[Cell.str "product_id", Cell.str "reseller_id", Cell.str "reseller_qty"],
           [Cell.str "P1", Cell.str "R-2", Cell.str "bad"]], []⟩ : Db).stock ∧
    (⟨[], [⟨"P1", "S1", "10"⟩], [],
      [[Cell.str "product_id", Cell.str "reseller_id", Cell.str "reseller_qty"],
       [Cell.str "P1", Cell.str "R-2", Cell.str "bad"]],
      [{ user_id := "", person_entity_id := "", customer_id := "C-000",
         product_id := "P1", short_id := "S1", qty := 1, price := (10 : ℚ),
         commission_pct := 0, total := (10 : ℚ) * ((1 : ℤ) : ℚ),
         payment_method := "cash" }]⟩ : Db).sales.length
      = (⟨[], [⟨"P1", "S1", "10"⟩], [],
          [[Cell.str "product_id", Cell.str "reseller_id", Cell.str "reseller_qty"],
           [Cell.str "P1", Cell.str "R-2", Cell.str "bad"]], []⟩ : Db).sales.length + 1 :=
  stock_adjust_bad_qty_skipped
    [Cell.str "product_id", Cell.str "reseller_id", Cell.str "reseller_qty"]
    [] [] [Cell.str "P1", Cell.str "R-2", Cell.str "bad"] "P1" "R-2" 1 0 1 2 0
    ⟨[], [⟨"P1", "S1", "10"⟩], [],
      [[Cell.str "product_id", Cell.str "reseller_id", Cell.str "reseller_qty"],
       [Cell.str "P1", Cell.str "R-2", Cell.str "bad"]], []⟩
    { reseller_id := "R-2", product_id := "P1" }
    ⟨"P1", "S1", "10"⟩
    { total := (10 : ℚ) * ((1 : ℤ) : ℚ), price := (10 : ℚ), commission_pct := 0,
      customer_id := "C-000", payment_method := "cash" }
    ⟨[], [⟨"P1", "S1", "10"⟩], [],
      [[Cell.str "product_id", Cell.str "reseller_id", Cell.str "reseller_qty"],
       [Cell.str "P1", Cell.str "R-2", Cell.str "bad"]],
      [{ user_id := "", person_entity_id := "", customer_id := "C-000",
         product_id := "P1", short_id := "S1", qty := 1, price := (10 : ℚ),
         commission_pct := 0, total := (10 : ℚ) * ((1 : ℤ) : ℚ),
         payment_method := "cash" }]⟩
    rfl rfl rfl (by decide) (by intro x hx; cases hx) rfl rfl rfl rfl rfl rfl rfl rfl

/-! ### C7: total, price and the appended sale row -/

/-- C7.  Every successful `recordSale` returns `total = price * qty` and
appends exactly one sale row carrying the same quantity, price, commission
and total as the response. -/
theorem pos_sale_total_and_row (today : Nat) (db : Db) (p : SalePayload)
    (res : SaleResult) (db2 : Db)
    (h : posSale today db p = Except.ok (res, db2)) :
    ∃ q row, parseQtyField p.qty = some q ∧
      res.total = res.price * (q : ℚ) ∧
      db2.sales = db.sales ++ [row] ∧
      row.qty = q ∧ row.price = res.price ∧
      row.commission_pct = res.commission_pct ∧ row.total = res.total := by
  obtain ⟨q, prod, rp, price, hq, _, _, _, hres, hdb⟩ :=
    posSale_ok_inv today db p res db2 h
  subst hres
  subst hdb
  exact ⟨q, _, hq, rfl, rfl, rfl, rfl, rfl, rfl⟩

/-- Witness for `pos_sale_total_and_row`: the spec's example — qty 3,
resolved price 10.0, commission 5.0, total 30.0 (the rationals are written in
the exact pre-normalised form the parser produces). -/
theorem pos_sale_total_and_row_w :
    ∃ q row,
      parseQtyField (some "3") = some q ∧
      ({ total := ((10 : ℚ) + 0 / 10 ^ 1) * ((3 : ℤ) : ℚ),
         price := (10 : ℚ) + 0 / 10 ^ 1,
         commission_pct := (5 : ℚ) + 0 / 10 ^ 1,
         customer_id := "C-000", payment_method := "cash" } : SaleResult).total
        = ({ total := ((10 : ℚ) + 0 / 10 ^ 1) * ((3 : ℤ) : ℚ),
             price := (10 : ℚ) + 0 / 10 ^ 1,
             commission_pct := (5 : ℚ) + 0 / 10 ^ 1,
             customer_id := "C-000", payment_method := "cash" } : SaleResult).price
          * (q : ℚ) ∧
      (⟨[], [⟨"P1", "S1", ""⟩], [⟨"R1", "P1", "", "", "10.0", "5.0"⟩], [],
        [{ user_id := "", person_entity_id := "", customer_id := "C-000",
           product_id := "P1", short_id := "S1", qty := 3,
           price := (10 : ℚ) + 0 / 10 ^ 1,
           commission_pct := (5 : ℚ) + 0 / 10 ^ 1,
           total := ((10 : ℚ) + 0 / 10 ^ 1) * ((3 : ℤ) : ℚ),
           payment_method := "cash" }]⟩ : Db).sales
        = (⟨[], [⟨"P1", "S1", ""⟩], [⟨"R1", "P1", "", "", "10.0", "5.0"⟩], [], []⟩ : Db).sales
            ++ [row] ∧
      row.qty = q ∧
      row.price
        = ({ total := ((10 : ℚ) + 0 / 10 ^ 1) * ((3 : ℤ) : ℚ),
             price := (10 : ℚ) + 0 / 10 ^ 1,
             commission_pct := (5 : ℚ) + 0 / 10 ^ 1,
             customer_id := "C-000", payment_method := "cash" } : SaleResult).price ∧
      row.commission_pct
        = ({ total := ((10 : ℚ) + 0 / 10 ^ 1) * ((3 : ℤ) : ℚ),
             price := (10 : ℚ) + 0 / 10 ^ 1,
             commission_pct := (5 : ℚ) + 0 / 10 ^ 1,
             customer_id := "C-000", payment_method := "cash" } : SaleResult).commission_pct ∧
      row.total
        = ({ total := ((10 : ℚ) + 0 / 10 ^ 1) * ((3 : ℤ) : ℚ),
             price := (10 : ℚ) + 0 / 10 ^ 1,
             commission_pct := (5 : ℚ) + 0 / 10 ^ 1,
             customer_id := "C-000", payment_method := "cash" } : SaleResult).total :=
  pos_sale_total_and_row 20240101
    ⟨[], [⟨"P1", "S1", ""⟩], [⟨"R1", "P1", "", "", "10.0", "5.0"⟩], [], []⟩
    { reseller_id := "R1", product_id := "P1", qty := some "3" }
    { total := ((10 : ℚ) + 0 / 10 ^ 1) * ((3 : ℤ) : ℚ),
      price := (10 : ℚ) + 0 / 10 ^ 1,
      commission_pct := (5 : ℚ) + 0 / 10 ^ 1,
      customer_id := "C-000", payment_method := "cash" }
    ⟨[], [⟨"P1", "S1", ""⟩], [⟨"R1", "P1", "", "", "10.0", "5.0"⟩], [],
      [{ user_id := "", person_entity_id := "", customer_id := "C-000",
         product_id := "P1", short_id := "S1", qty := 3,
         price := (10 : ℚ) + 0 / 10 ^ 1,
         commission_pct := (5 : ℚ) + 0 / 10 ^ 1,
         total := ((10 : ℚ) + 0 / 10 ^ 1) * ((3 : ℤ) : ℚ),
         payment_method := "cash" }]⟩
    rfl

/-! ### C3: checkout writes, then fails, and never rolls back -/

/-- One checkout loop step, as an equation. -/
theorem checkoutGo_cons (today : Nat) (cx : LineCtx) (db : Db) (acc : ℚ) (n : Nat)
    (it : Item) (rest : List Item) :
    checkoutGo today cx db acc n (it :: rest)
      = match processItem today cx db it with
        | .error e => (db, .error e)
        | .ok (_, total, db2) => checkoutGo today cx db2 (acc + total) (n + 1) rest := rfl

/-- An unresolvable product aborts the item before anything else runs. -/
theorem processItem_notFound (today : Nat) (cx : LineCtx) (db : Db) (it : Item)
    (h : lookupProduct db.products it.product_id it.short_id = none) :
    processItem today cx db it = Except.error PosErr.notFound := by
  rw [processItem.eq_def, h]

/-- A successful checkout line appends exactly its sale row and leaves the
`Products` tab untouched. -/
theorem processItem_ok_inv (today : Nat) (cx : LineCtx) (db : Db) (it : Item)
    (row : SaleRow) (t : ℚ) (db2 : Db)
    (h : processItem today cx db it = Except.ok (row, t, db2)) :
    db2.sales = db.sales ++ [row] ∧ db2.products = db.products := by
  rw [processItem.eq_def] at h
  split at h
  · exact Except.noConfusion h
  · split at h
    · exact Except.noConfusion h
    · split at h
      · exact Except.noConfusion h
      · split at h
        · exact Except.noConfusion h
        · rw [Except.ok.injEq, Prod.mk.injEq, Prod.mk.injEq] at h
          rw [← h.2.2]
          exact ⟨by rw [← h.1], rfl⟩

/-- C3.  A two-item checkout whose first item processes successfully and
whose second item's product matches neither key: the first item's sale row is
appended (and its stock effect applied — the final store state is exactly the
state after item one), the request fails with the not-found error, no sale
row is appended for the failing item, and nothing is rolled back. -/
theorem checkout_partial_failure (today : Nat) (db db1 : Db) (p : CheckoutPayload)
    (i1 i2 : Item) (row : SaleRow) (t : ℚ)
    (hi : p.items = [i1, i2])
    (h1 : processItem today (ctxOf db p) db i1 = Except.ok (row, t, db1))
    (h2 : lookupProduct db.products i2.product_id i2.short_id = none) :
    checkout today db p = (db1, Except.error PosErr.notFound) ∧
    db1.sales = db.sales ++ [row] := by
  obtain ⟨hsales, hprods⟩ := processItem_ok_inv today (ctxOf db p) db i1 row t db1 h1
  have h2b : lookupProduct db1.products i2.product_id i2.short_id = none := by
    rw [hprods]
    exact h2
  have hpi2 := processItem_notFound today (ctxOf db p) db1 i2 h2b
  refine ⟨?_, hsales⟩
  rw [checkout.eq_def, hi]
  rw [if_neg (by simp : ¬([i1, i2] = ([] : List Item)))]
  simp only [checkoutGo_cons, h1, hpi2]
  rfl

/-- Witness for `checkout_partial_failure`: first item resolves product `P1`
(base price 10, no reseller pricing, no stock tracking), second item names
the unknown product `PX`. -/
theorem checkout_partial_failure_w :
    checkout 0 ⟨[], [⟨"P1", "S1", "10"⟩], [], [], []⟩
      { items := [{ product_id := "P1" }, { product_id := "PX" }] }
      = (⟨[], [⟨"P1", "S1", "10"⟩], [], [],
          [{ user_id := "", person_entity_id := "", customer_id := "C-000",
             product_id := "P1", short_id := "S1", qty := 1, price := (10 : ℚ),
             commission_pct := 0, total := (10 : ℚ) * ((1 : ℤ) : ℚ),
             payment_method := "cash" }]⟩,
         Except.error PosErr.notFound) ∧
    (⟨[], [⟨"P1", "S1", "10"⟩], [], [],
      [{ user_id := "", person_entity_id := "", customer_id := "C-000",
         product_id := "P1", short_id := "S1", qty := 1, price := (10 : ℚ),
         commission_pct := 0, total := (10 : ℚ) * ((1 : ℤ) : ℚ),
         payment_method := "cash" }]⟩ : Db).sales
      = (⟨[], [⟨"P1", "S1", "10"⟩], [], [], []⟩ : Db).sales
          ++ [{ user_id := "", person_entity_id := "", customer_id := "C-000",
                product_id := "P1", short_id := "S1", qty := 1, price := (10 : ℚ),
                commission_pct := 0, total := (10 : ℚ) * ((1 : ℤ) : ℚ),
                payment_method := "cash" }] :=
  checkout_partial_failure 0 ⟨[], [⟨"P1", "S1", "10"⟩], [], [], []⟩
    ⟨[], [⟨"P1", "S1", "10"⟩], [], [],
      [{ user_id := "", person_entity_id := "", customer_id := "C-000",
         product_id := "P1", short_id := "S1", qty := 1, price := (10 : ℚ),
         commission_pct := 0, total := (10 : ℚ) * ((1 : ℤ) : ℚ),
         payment_method := "cash" }]⟩
    { items := [{ product_id := "P1" }, { product_id := "PX" }] }
    { product_id := "P1" } { product_id := "PX" }
    { user_id := "", person_entity_id := "", customer_id := "C-000",
      product_id := "P1", short_id := "S1", qty := 1, price := (10 : ℚ),
      commission_pct := 0, total := (10 : ℚ) * ((1 : ℤ) : ℚ),
      payment_method := "cash" }
    ((10 : ℚ) * ((1 : ℤ) : ℚ))
    rfl rfl rfl
